import Mathlib

/-!
Verification of the sentence-accumulation and session-relay logic of the
live-translation repository (src/voice-processor.js and src/server.js).

The per-connection mutable fields of the VoiceProcessor class that the
accumulator logic touches are modelled as a record VPState; the methods
become pure state transformers returning the new state together with the
text they hand downstream.  JS string truthiness is modelled by comparison
with the empty string, and JS String.prototype.trim by jsTrim below.
-/

/-- Drop leading and trailing whitespace from a character list. -/
def trimChars (cs : List Char) : List Char :=
  ((cs.dropWhile Char.isWhitespace).reverse.dropWhile Char.isWhitespace).reverse

/-- Model of JS String.prototype.trim: strip whitespace from both
ends.  (Implemented over the character list so that it evaluates inside
the kernel.) -/
def jsTrim (s : String) : String :=
  String.mk (trimChars s.data)

/-- Per-connection accumulator state of the VoiceProcessor class
(voice-processor.js, constructor lines 30-42):
sentence, lastInterim, lastSentence, sentenceTimer (modelled by the
Boolean timerArmed), isStreaming, and the processing lock isProcessing.
The stream handle itself and the Google client objects are external
resources and are not part of the accumulator state. -/
structure VPState where
  sentence : String
  lastInterim : String
  lastSentence : String
  timerArmed : Bool
  isStreaming : Bool
  isProcessing : Bool
deriving Repr, DecidableEq

/-- The space-joining step used twice in _handleSTTData
(voice-processor.js lines 168-172 and 177): append a fragment to the
accumulator, separated by a space when the accumulator is non-empty. -/
def joinStep (acc t : String) : String :=
  if acc ≠ "" then acc ++ " " ++ t else t

/-- _handleSTTData (voice-processor.js lines 157-185).  The extracted
response fields are the isFinal flag and the raw transcript; a response
with no results / no alternatives / no transcript is modelled by a raw
transcript whose trim is empty, which the source skips
(`if (!transcript) return;`).  The second component is the interim
preview emitted to the local UI (event transcript_interim), none for a
final result.  Resetting the silence timer is modelled by
timerArmed := true. -/
def handleSTTData (isFinal : Bool) (rawTranscript : String) (s : VPState) :
    VPState × Option String :=
  let transcript := jsTrim rawTranscript
  if transcript = "" then (s, none)
  else if isFinal then
    ({ s with sentence := joinStep s.sentence transcript,
              lastInterim := "",
              timerArmed := true }, none)
  else
    let preview := joinStep s.sentence transcript
    ({ s with lastInterim := preview, timerArmed := true }, some preview)

/-- _finalizeSentence (voice-processor.js lines 221-239): clear the
timer; no-op when the sentence is empty or equals the last dispatched
sentence; otherwise trim, record as lastSentence, clear the accumulator
and hand the trimmed sentence to _translateAndSpeak.  The second
component is the sentence handed downstream (none when the guard
fires). -/
def finalizeSentence (s : VPState) : VPState × Option String :=
  let s0 := { s with timerArmed := false }
  if s0.sentence = "" ∨ s0.sentence = s0.lastSentence then (s0, none)
  else
    let finalSentence := jsTrim s0.sentence
    ({ s0 with lastSentence := finalSentence, sentence := "" }, some finalSentence)

/-- _handleSTTError (voice-processor.js lines 187-210): mark the stream
down, promote the interim backup into the sentence when no finals were
accumulated and the backup differs from the last dispatched sentence,
finalize any accumulated sentence, then clear the interim backup.  The
second component is the sentence dispatched downstream, if any. -/
def handleSTTError (s : VPState) : VPState × Option String :=
  let s1 := { s with isStreaming := false }
  let s2 :=
    if s1.sentence = "" ∧ s1.lastInterim ≠ "" ∧ s1.lastInterim ≠ s1.lastSentence
    then { s1 with sentence := s1.lastInterim }
    else s1
  let r :=
    if s2.sentence ≠ "" ∧ s2.sentence ≠ s2.lastSentence
    then finalizeSentence s2
    else (s2, none)
  ({ r.1 with lastInterim := "" }, r.2)

/-- The synchronous accumulator part of cleanup (voice-processor.js
lines 424-435): cancel the timer, finalize any pending sentence that
differs from the last dispatched one, stop the stream.  Slot detachment
and the user_left notification are modelled separately for the teardown
ordering claim. -/
def cleanupSync (s : VPState) : VPState × Option String :=
  let s1 := { s with timerArmed := false }
  let r :=
    if s1.sentence ≠ "" ∧ s1.sentence ≠ s1.lastSentence
    then finalizeSentence s1
    else (s1, none)
  ({ r.1 with isStreaming := false }, r.2)

/-- Consume a sequence of recognition events (isFinal flag, raw
transcript) in arrival order, keeping only the state. -/
def processEvents (evs : List (Bool × String)) (s : VPState) : VPState :=
  evs.foldl (fun st e => (handleSTTData e.1 e.2 st).1) s

/-- The trimmed texts of the final events of a sequence, in arrival
order, skipping events whose transcript trims to empty (which the source
ignores). -/
def finalTexts (evs : List (Bool × String)) : List String :=
  evs.filterMap fun e => if e.1 = true ∧ jsTrim e.2 ≠ "" then some (jsTrim e.2) else none

/-- Space-join a list of fragments onto an initial accumulator, the way
repeated final events grow the sentence field. -/
def spaceJoinFrom (acc : String) (ts : List String) : String :=
  ts.foldl joinStep acc

/-- Space-join a list of fragments starting from the empty
accumulator. -/
def spaceJoin (ts : List String) : String :=
  spaceJoinFrom "" ts

/-- A freshly connected (or freshly finalized) accumulator state, used
as a concrete input by several witnesses. -/
def freshState : VPState :=
  { sentence := "", lastInterim := "", lastSentence := "",
    timerArmed := false, isStreaming := true, isProcessing := false }

/-- A state with the pending, not yet finalized sentence "I am". -/
def pendingState : VPState :=
  { sentence := "I am", lastInterim := "", lastSentence := "",
    timerArmed := true, isStreaming := true, isProcessing := false }

/-- The event sequence of the reference scenario: final "Hello", an
interleaved interim "Hello there", final "there". -/
def helloEvents : List (Bool × String) :=
  [(true, "Hello"), (false, "Hello there"), (true, "there")]

/-- Processing a sequence of recognition events grows the sentence field
by space-joining exactly the trimmed final fragments, and never touches
lastSentence: interim events update only the preview and the timer. -/
theorem processEvents_sentence (evs : List (Bool × String)) (s : VPState) :
    (processEvents evs s).sentence = spaceJoinFrom s.sentence (finalTexts evs) ∧
    (processEvents evs s).lastSentence = s.lastSentence := by
  induction evs generalizing s with
  | nil => simp [processEvents, finalTexts, spaceJoinFrom]
  | cons e rest ih =>
    obtain ⟨f, t⟩ := e
    have hstep : processEvents ((f, t) :: rest) s =
        processEvents rest (handleSTTData f t s).1 := by
      simp [processEvents]
    by_cases ht : jsTrim t = ""
    · have hstate : (handleSTTData f t s).1 = s := by
        simp [handleSTTData, ht]
      have hft : finalTexts ((f, t) :: rest) = finalTexts rest := by
        simp [finalTexts, ht]
      rw [hstep, hstate, hft]
      exact ih s
    · cases f with
      | true =>
        have hstate : (handleSTTData true t s).1 =
            { s with sentence := joinStep s.sentence (jsTrim t),
                     lastInterim := "", timerArmed := true } := by
          simp [handleSTTData, ht]
        have hft : finalTexts ((true, t) :: rest) = jsTrim t :: finalTexts rest := by
          simp [finalTexts, ht]
        rw [hstep, hstate, hft]
        have h := ih { s with sentence := joinStep s.sentence (jsTrim t),
                              lastInterim := "", timerArmed := true }
        simpa [spaceJoinFrom] using h
      | false =>
        have hstate : (handleSTTData false t s).1 =
            { s with lastInterim := joinStep s.sentence (jsTrim t),
                     timerArmed := true } := by
          simp [handleSTTData, ht]
        have hft : finalTexts ((false, t) :: rest) = finalTexts rest := by
          simp [finalTexts, ht]
        rw [hstep, hstate, hft]
        have h := ih { s with lastInterim := joinStep s.sentence (jsTrim t),
                              timerArmed := true }
        simpa using h

/-- Helper: when the pending sentence is non-empty and differs from the
last dispatched one, finalize hands the trimmed sentence downstream. -/
theorem finalizeSentence_dispatch_some (s : VPState)
    (h1 : s.sentence ≠ "") (h2 : s.sentence ≠ s.lastSentence) :
    (finalizeSentence s).2 = some (jsTrim s.sentence) := by
  simp [finalizeSentence, h1, h2]

/-- C1: starting from a freshly finalized state (empty sentence), the
sentence dispatched by the next finalize equals the space-joined
concatenation, in arrival order, of the trimmed texts of all final
events consumed since, trimmed once more by the finalize routine;
interim events do not appear in the statement at all, so any number of
interleaved interim events leaves the dispatched text unchanged. -/
theorem sentence_dispatch_joins_finals (s : VPState) (evs : List (Bool × String))
    (h0 : s.sentence = "")
    (h1 : spaceJoin (finalTexts evs) ≠ "")
    (h2 : spaceJoin (finalTexts evs) ≠ s.lastSentence) :
    (processEvents evs s).sentence = spaceJoin (finalTexts evs) ∧
    (finalizeSentence (processEvents evs s)).2 = some (jsTrim (spaceJoin (finalTexts evs))) := by
  obtain ⟨hs, hl⟩ := processEvents_sentence evs s
  rw [h0] at hs
  refine ⟨hs, ?_⟩
  have h1' : (processEvents evs s).sentence ≠ "" := by rw [hs]; exact h1
  have h2' : (processEvents evs s).sentence ≠ (processEvents evs s).lastSentence := by
    rw [hs, hl]; exact h2
  rw [finalizeSentence_dispatch_some _ h1' h2', hs]
  rfl

/-- C1 witness: finals "Hello" and "there" with an interleaved interim
"Hello there" dispatch exactly "Hello there". -/
theorem sentence_dispatch_joins_finals_witness :
    freshState.sentence = "" ∧
    spaceJoin (finalTexts helloEvents) ≠ "" ∧
    spaceJoin (finalTexts helloEvents) ≠ freshState.lastSentence ∧
    ((processEvents helloEvents freshState).sentence = spaceJoin (finalTexts helloEvents) ∧
     (finalizeSentence (processEvents helloEvents freshState)).2 =
       some (jsTrim (spaceJoin (finalTexts helloEvents)))) :=
  ⟨rfl, by decide, by decide,
   sentence_dispatch_joins_finals freshState helloEvents rfl (by decide) (by decide)⟩

/-- C2: when a dispatchable sentence is pending, the first finalize
hands exactly the trimmed sentence downstream, and calling finalize
again on the resulting state dispatches nothing and leaves the state
completely unchanged. -/
theorem finalize_idempotent (s : VPState)
    (h1 : s.sentence ≠ "") (h2 : s.sentence ≠ s.lastSentence) :
    (finalizeSentence s).2 = some (jsTrim s.sentence) ∧
    finalizeSentence (finalizeSentence s).1 = ((finalizeSentence s).1, none) := by
  simp [finalizeSentence, h1, h2]

/-- C2 witness at a concrete pending sentence. -/
theorem finalize_idempotent_witness :
    pendingState.sentence ≠ "" ∧
    pendingState.sentence ≠ pendingState.lastSentence ∧
    ((finalizeSentence pendingState).2 = some (jsTrim pendingState.sentence) ∧
     finalizeSentence (finalizeSentence pendingState).1 =
       ((finalizeSentence pendingState).1, none)) :=
  ⟨by decide, by decide,
   finalize_idempotent pendingState (by decide) (by decide)⟩

/-- A state holding only an interim preview: no finals were accumulated
before the stream died. -/
def interimOnlyState : VPState :=
  { sentence := "", lastInterim := "Hello there", lastSentence := "",
    timerArmed := true, isStreaming := true, isProcessing := false }

/-- A state whose pending sentence repeats the last dispatched one. -/
def repeatState : VPState :=
  { sentence := "Hello", lastInterim := "", lastSentence := "Hello",
    timerArmed := true, isStreaming := true, isProcessing := false }

/-- C4: a stream error arriving with no accumulated finals, a non-empty
interim preview that differs from the last dispatched sentence, and a
preview already in trimmed form (an invariant of every preview the
source builds, since previews are space-joins of trimmed non-empty
fragments) promotes the preview, dispatches exactly the preview text,
and afterwards clears the preview, clears the sentence and records the
preview as the last dispatched sentence. -/
theorem stt_error_promotes_interim (s : VPState)
    (h0 : s.sentence = "") (h1 : s.lastInterim ≠ "")
    (h2 : s.lastInterim ≠ s.lastSentence)
    (h3 : jsTrim s.lastInterim = s.lastInterim) :
    (handleSTTError s).2 = some s.lastInterim ∧
    (handleSTTError s).1.lastInterim = "" ∧
    (handleSTTError s).1.sentence = "" ∧
    (handleSTTError s).1.lastSentence = s.lastInterim := by
  simp [handleSTTError, finalizeSentence, h0, h1, h2, h3]

/-- C4 witness: a stream error with preview "Hello there" and nothing
committed dispatches "Hello there". -/
theorem stt_error_promotes_interim_witness :
    interimOnlyState.sentence = "" ∧
    interimOnlyState.lastInterim ≠ "" ∧
    interimOnlyState.lastInterim ≠ interimOnlyState.lastSentence ∧
    jsTrim interimOnlyState.lastInterim = interimOnlyState.lastInterim ∧
    ((handleSTTError interimOnlyState).2 = some interimOnlyState.lastInterim ∧
     (handleSTTError interimOnlyState).1.lastInterim = "" ∧
     (handleSTTError interimOnlyState).1.sentence = "" ∧
     (handleSTTError interimOnlyState).1.lastSentence = interimOnlyState.lastInterim) :=
  ⟨rfl, by decide, by decide, by decide,
   stt_error_promotes_interim interimOnlyState rfl (by decide) (by decide) (by decide)⟩

/-- C10: when the accumulated sentence equals the last dispatched
sentence, finalize dispatches nothing and only clears the timer, the
teardown flush dispatches nothing, and the stream-error handler never
dispatches that repeated text either (its interim fallback, when it
fires, dispatches a preview that differs from the last dispatched
sentence).  The trimmed-preview hypothesis is the same source invariant
as in the fallback claim. -/
theorem finalize_drops_repeat (s : VPState)
    (h : s.sentence = s.lastSentence)
    (h' : jsTrim s.lastInterim = s.lastInterim) :
    (finalizeSentence s).2 = none ∧
    (finalizeSentence s).1 = { s with timerArmed := false } ∧
    (cleanupSync s).2 = none ∧
    (handleSTTError s).2 ≠ some s.sentence := by
  refine ⟨?_, ?_, ?_, ?_⟩
  · simp [finalizeSentence, h]
  · simp [finalizeSentence, h]
  · simp [cleanupSync, finalizeSentence, h]
  · by_cases hp : s.sentence = "" ∧ s.lastInterim ≠ "" ∧ s.lastInterim ≠ s.lastSentence
    · obtain ⟨hp1, hp2, hp3⟩ := hp
      simp [handleSTTError, finalizeSentence, hp1, hp2, hp3, h']
    · have hguard : ¬(s.sentence ≠ "" ∧ s.sentence ≠ s.lastSentence) := fun hcon => hcon.2 h
      simp [handleSTTError, hp, hguard]

/-- C10 witness: a pending "Hello" that repeats the last dispatched
"Hello" is dropped by finalize, by teardown and by the error handler. -/
theorem finalize_drops_repeat_witness :
    repeatState.sentence = repeatState.lastSentence ∧
    jsTrim repeatState.lastInterim = repeatState.lastInterim ∧
    ((finalizeSentence repeatState).2 = none ∧
     (finalizeSentence repeatState).1 = { repeatState with timerArmed := false } ∧
     (cleanupSync repeatState).2 = none ∧
     (handleSTTError repeatState).2 ≠ some repeatState.sentence) :=
  ⟨rfl, by decide,
   finalize_drops_repeat repeatState rfl (by decide)⟩

/-- JS `tag || "en"` (voice-processor.js line 295): an absent or empty
language tag falls back to "en".  A null/undefined tag is modelled by
the empty string, which JS treats the same way here. -/
def jsOrEn (tag : String) : String :=
  if tag = "" then "en" else tag

/-- The part of a string before its first "-" (the whole string when it
has none), i.e. JS `tag.split("-")[0]`.  (Implemented over the character
list so that it evaluates inside the kernel.) -/
def dashPrefix (tag : String) : String :=
  String.mk (tag.data.takeWhile (fun c => c ≠ '-'))

/-- JS `(tag || "en").split("-")[0]`: the base language subtag, the part
of the defaulted tag before its first "-". -/
def baseLang (tag : String) : String :=
  dashPrefix (jsOrEn tag)

/-- _translate (voice-processor.js lines 294-306).  The external
translation engine is modelled by its outcome: Except.ok carries the
engine's result, Except.error marks a thrown failure, which the source
catches and turns into a pass-through of the original text.  The Boolean
in the result records whether the engine was invoked at all. -/
def translateText (text srcTag dstTag : String) (engine : Except Unit String) :
    String × Bool :=
  let fromLang := baseLang srcTag
  let toLang := baseLang dstTag
  if fromLang = toLang then (text, false)
  else
    match engine with
    | Except.ok result => (result, true)
    | Except.error _ => (text, true)

/-- The structured translation update delivered to both UI channels
(voice-processor.js lines 265-274).  The sender role field fromUser is
connection metadata that none of the claims inspect and is omitted. -/
structure TranslationPayload where
  originalText : String
  translatedText : String
  fromLanguage : String
  toLanguage : String
deriving Repr, DecidableEq

/-- The external world of one _translateAndSpeak round: whether the
session lookup succeeds, the partner connection's language
(none models a missing partner or a partner without a language, the
inner `some ""` a partner whose language field is falsy), socket states,
and the outcomes of the external translate / synthesize calls.
partnerSendThrows models `partner.ws.send` throwing on the audio
delivery, the one statement inside the try block that can raise. -/
structure RelayEnv where
  sessionExists : Bool
  partnerLanguage : Option String
  selfSocketOpen : Bool
  partnerSocketOpen : Bool
  translateOutcome : Except Unit String
  ttsOutcome : Option (List Nat)
  partnerSendThrows : Bool

/-- The externally visible effects of one _translateAndSpeak round. -/
structure RelayOutputs where
  engineCalled : Bool
  sentToSelf : Option TranslationPayload
  sentToPartner : Option TranslationPayload
  audioSentToPartner : Bool
deriving Repr, DecidableEq

/-- The empty effect record: nothing was delivered anywhere. -/
def noRelayOutput : RelayOutputs :=
  { engineCalled := false, sentToSelf := none, sentToPartner := none,
    audioSentToPartner := false }

/-- _translateAndSpeak (voice-processor.js lines 241-292): drop the
round when the processing lock is held or the text is empty; otherwise
take the lock, and inside a try/finally resolve the session, find the
partner, translate, deliver the translation payload to both UI channels,
synthesize and deliver the audio to the partner; the finally block
releases the lock on every exit path, including the throw from the raw
partner socket send. -/
def translateAndSpeak (text myLang : String) (s : VPState) (env : RelayEnv) :
    VPState × RelayOutputs :=
  if s.isProcessing ∨ text = "" then (s, noRelayOutput)
  else
    let s1 := { s with isProcessing := true }
    let out :=
      if ¬ env.sessionExists then noRelayOutput
      else
        match env.partnerLanguage with
        | none => noRelayOutput
        | some partnerLang =>
          if partnerLang = "" then noRelayOutput
          else
            let tr := translateText text myLang partnerLang env.translateOutcome
            let payload : TranslationPayload :=
              { originalText := text, translatedText := tr.1,
                fromLanguage := myLang, toLanguage := partnerLang }
            { engineCalled := tr.2,
              sentToSelf := if env.selfSocketOpen then some payload else none,
              sentToPartner := if env.partnerSocketOpen then some payload else none,
              audioSentToPartner :=
                env.ttsOutcome.isSome && env.partnerSocketOpen && !env.partnerSendThrows }
    ({ s1 with isProcessing := false }, out)

/-- C3: when the processing lock is already held, a new sentence handed
to _translateAndSpeak is dropped outright: the connection state is
returned unchanged (nothing is queued anywhere) and no external effect
happens, so the round already in flight is unaffected. -/
theorem translateAndSpeak_single_flight (text myLang : String) (s : VPState)
    (env : RelayEnv) (h : s.isProcessing = true) :
    translateAndSpeak text myLang s env = (s, noRelayOutput) := by
  simp [translateAndSpeak, h]

/-- C3 witness: a busy connection drops the sentence "Hello". -/
theorem translateAndSpeak_single_flight_witness :
    ({ pendingState with isProcessing := true } : VPState).isProcessing = true ∧
    translateAndSpeak "Hello" "en"
      { pendingState with isProcessing := true }
      { sessionExists := true, partnerLanguage := some "es", selfSocketOpen := true,
        partnerSocketOpen := true, translateOutcome := Except.ok "Hola",
        ttsOutcome := some [0, 1], partnerSendThrows := false } =
      ({ pendingState with isProcessing := true }, noRelayOutput) :=
  ⟨rfl, translateAndSpeak_single_flight "Hello" "en" _ _ rfl⟩

/-- C7: whenever _translateAndSpeak is entered with the processing lock
clear, the lock is clear again when the call completes, whatever the
environment did: empty text, missing session, missing or language-less
partner, translation failure, synthesis failure, closed sockets, and the
thrown partner-socket send are all covered by the quantification over
the environment. -/
theorem translateAndSpeak_clears_processing (text myLang : String) (s : VPState)
    (env : RelayEnv) (h : s.isProcessing = false) :
    (translateAndSpeak text myLang s env).1.isProcessing = false := by
  by_cases hdrop : s.isProcessing = true ∨ text = ""
  · rcases hdrop with h1 | h2
    · rw [h] at h1; exact absurd h1 (by simp)
    · simp [translateAndSpeak, h, h2]
  · push_neg at hdrop
    simp [translateAndSpeak, h, hdrop.2]

/-- C7 witness: a round whose partner-socket send throws still releases
the lock. -/
theorem translateAndSpeak_clears_processing_witness :
    (freshState.isProcessing = false) ∧
    (translateAndSpeak "Hello" "en" freshState
      { sessionExists := true, partnerLanguage := some "es", selfSocketOpen := true,
        partnerSocketOpen := true, translateOutcome := Except.error (),
        ttsOutcome := some [0, 1], partnerSendThrows := true }).1.isProcessing = false :=
  ⟨rfl, translateAndSpeak_clears_processing "Hello" "en" freshState _ rfl⟩

/-- C8: for every text and every pair of non-empty language tags whose
parts before the first "-" agree, _translate returns the input text
unchanged and never invokes the external translation engine, whatever
that engine would have answered. -/
theorem translate_same_base_passthrough (text srcTag dstTag : String)
    (engine : Except Unit String) (hs : srcTag ≠ "") (hd : dstTag ≠ "")
    (h : dashPrefix srcTag = dashPrefix dstTag) :
    translateText text srcTag dstTag engine = (text, false) := by
  have hb : baseLang srcTag = baseLang dstTag := by
    simp [baseLang, jsOrEn, hs, hd, h]
  simp [translateText, hb]

/-- C8 witness: translating from "en-US" to "en-GB" passes the text
through and skips the engine even though the engine would have answered
something else. -/
theorem translate_same_base_passthrough_witness :
    ("en-US" : String) ≠ "" ∧ ("en-GB" : String) ≠ "" ∧
    dashPrefix "en-US" = dashPrefix "en-GB" ∧
    translateText "Hello there" "en-US" "en-GB" (Except.ok "CHANGED") = ("Hello there", false) :=
  ⟨by decide, by decide, by decide,
   translate_same_base_passthrough "Hello there" "en-US" "en-GB" (Except.ok "CHANGED")
     (by decide) (by decide) (by decide)⟩

/-- Buffer.writeUInt16LE: the two little-endian bytes of a 16-bit
value. -/
def u16le (v : Nat) : List Nat :=
  [v % 256, v / 256 % 256]

/-- Buffer.writeUInt32LE: the four little-endian bytes of a 32-bit
value. -/
def u32le (v : Nat) : List Nat :=
  [v % 256, v / 256 % 256, v / 65536 % 256, v / 16777216 % 256]

/-- Buffer.write of an ASCII string: its character codes. -/
def asciiBytes (s : String) : List Nat :=
  s.data.map Char.toNat

/-- _toWav (voice-processor.js lines 389-405): the fixed 44-byte RIFF
header written field by field at offsets 0..43 — chunk id, total size
36+N, format "WAVE", "fmt " sub-chunk of size 16 with audio format 1
(PCM), 1 channel, the sample rate, byte rate rate*2, block align 2,
16 bits per sample, then the "data" sub-chunk declaring N bytes —
followed by the raw PCM bytes (Buffer.concat([h, pcm])). -/
def toWav (pcm : List Nat) (rate : Nat) : List Nat :=
  asciiBytes "RIFF" ++ u32le (36 + pcm.length) ++ asciiBytes "WAVE" ++
  asciiBytes "fmt " ++ u32le 16 ++ u16le 1 ++ u16le 1 ++ u32le rate ++
  u32le (rate * 2) ++ u16le 2 ++ u16le 16 ++ asciiBytes "data" ++
  u32le pcm.length ++ pcm

/-- The byte of a buffer at an index (0 past the end). -/
def byteAt (l : List Nat) (i : Nat) : Nat :=
  l.getD i 0

/-- Decode the little-endian 16-bit value stored at an offset. -/
def decodeU16LE (l : List Nat) (off : Nat) : Nat :=
  byteAt l off + 256 * byteAt l (off + 1)

/-- Decode the little-endian 32-bit value stored at an offset. -/
def decodeU32LE (l : List Nat) (off : Nat) : Nat :=
  byteAt l off + 256 * byteAt l (off + 1) + 65536 * byteAt l (off + 2) +
  16777216 * byteAt l (off + 3)

/-- The container laid out as an explicit byte list: header bytes 0..43
followed by the payload. -/
theorem toWav_bytes (pcm : List Nat) (rate : Nat) :
    toWav pcm rate =
      82 :: 73 :: 70 :: 70 ::
      ((36 + pcm.length) % 256) :: ((36 + pcm.length) / 256 % 256) ::
      ((36 + pcm.length) / 65536 % 256) :: ((36 + pcm.length) / 16777216 % 256) ::
      87 :: 65 :: 86 :: 69 ::
      102 :: 109 :: 116 :: 32 ::
      16 :: 0 :: 0 :: 0 ::
      1 :: 0 ::
      1 :: 0 ::
      (rate % 256) :: (rate / 256 % 256) :: (rate / 65536 % 256) :: (rate / 16777216 % 256) ::
      (rate * 2 % 256) :: (rate * 2 / 256 % 256) :: (rate * 2 / 65536 % 256) ::
      (rate * 2 / 16777216 % 256) ::
      2 :: 0 ::
      16 :: 0 ::
      100 :: 97 :: 116 :: 97 ::
      (pcm.length % 256) :: (pcm.length / 256 % 256) :: (pcm.length / 65536 % 256) ::
      (pcm.length / 16777216 % 256) ::
      pcm := rfl

/-- C9: wrapping N PCM bytes at a 32-bit-representable rate yields a
buffer of length 44+N whose final 44.. bytes are byte-identical to the
input, whose first bytes spell "RIFF" and "WAVE", and whose header
fields decode to PCM format 1, mono, 16 bits per sample, the sample
rate, and a data-chunk size of exactly N. -/
theorem toWav_spec (pcm : List Nat) (rate : Nat)
    (hn : pcm.length + 36 < 4294967296) (hr : rate * 2 < 4294967296) :
    (toWav pcm rate).length = 44 + pcm.length ∧
    (toWav pcm rate).drop 44 = pcm ∧
    (toWav pcm rate).take 4 = asciiBytes "RIFF" ∧
    ((toWav pcm rate).drop 8).take 4 = asciiBytes "WAVE" ∧
    decodeU16LE (toWav pcm rate) 20 = 1 ∧
    decodeU16LE (toWav pcm rate) 22 = 1 ∧
    decodeU32LE (toWav pcm rate) 24 = rate ∧
    decodeU16LE (toWav pcm rate) 34 = 16 ∧
    decodeU32LE (toWav pcm rate) 40 = pcm.length := by
  have hlen : (toWav pcm rate).length = 44 + pcm.length := by
    rw [toWav_bytes]
    simp
    omega
  have hdrop : (toWav pcm rate).drop 44 = pcm := by
    rw [toWav_bytes]; rfl
  have hriff : (toWav pcm rate).take 4 = asciiBytes "RIFF" := by
    rw [toWav_bytes]; rfl
  have hwave : ((toWav pcm rate).drop 8).take 4 = asciiBytes "WAVE" := by
    rw [toWav_bytes]; rfl
  have hfmt : decodeU16LE (toWav pcm rate) 20 = 1 := by
    rw [toWav_bytes]; rfl
  have hmono : decodeU16LE (toWav pcm rate) 22 = 1 := by
    rw [toWav_bytes]; rfl
  have hratebytes : decodeU32LE (toWav pcm rate) 24 =
      rate % 256 + 256 * (rate / 256 % 256) + 65536 * (rate / 65536 % 256) +
      16777216 * (rate / 16777216 % 256) := by
    rw [toWav_bytes]; rfl
  have hrate : decodeU32LE (toWav pcm rate) 24 = rate := by
    rw [hratebytes]; omega
  have hbits : decodeU16LE (toWav pcm rate) 34 = 16 := by
    rw [toWav_bytes]; rfl
  have hsizebytes : decodeU32LE (toWav pcm rate) 40 =
      pcm.length % 256 + 256 * (pcm.length / 256 % 256) +
      65536 * (pcm.length / 65536 % 256) + 16777216 * (pcm.length / 16777216 % 256) := by
    rw [toWav_bytes]; rfl
  have hsize : decodeU32LE (toWav pcm rate) 40 = pcm.length := by
    rw [hsizebytes]; omega
  exact ⟨hlen, hdrop, hriff, hwave, hfmt, hmono, hrate, hbits, hsize⟩

/-- C9 witness: three PCM bytes at 48000 Hz. -/
theorem toWav_spec_witness :
    ([1, 2, 3] : List Nat).length + 36 < 4294967296 ∧ 48000 * 2 < 4294967296 ∧
    ((toWav [1, 2, 3] 48000).length = 44 + ([1, 2, 3] : List Nat).length ∧
     (toWav [1, 2, 3] 48000).drop 44 = [1, 2, 3] ∧
     (toWav [1, 2, 3] 48000).take 4 = asciiBytes "RIFF" ∧
     ((toWav [1, 2, 3] 48000).drop 8).take 4 = asciiBytes "WAVE" ∧
     decodeU16LE (toWav [1, 2, 3] 48000) 20 = 1 ∧
     decodeU16LE (toWav [1, 2, 3] 48000) 22 = 1 ∧
     decodeU32LE (toWav [1, 2, 3] 48000) 24 = 48000 ∧
     decodeU16LE (toWav [1, 2, 3] 48000) 34 = 16 ∧
     decodeU32LE (toWav [1, 2, 3] 48000) 40 = ([1, 2, 3] : List Nat).length) :=
  ⟨by decide, by decide,
   toWav_spec [1, 2, 3] 48000 (by decide) (by decide)⟩

/-- A session record as created by the /create-room handler
(server.js lines 39-47).  The connection slots and timestamp are not
consulted by the join handler and are omitted here. -/
structure RoomSession where
  creatorLanguage : String
  creatorName : String
  participantLanguage : Option String
  participantName : Option String
deriving Repr, DecidableEq

/-- JS truthiness of an optional string field: null/undefined and the
empty string are falsy. -/
def optTruthy : Option String → Bool
  | none => false
  | some s => s != ""

/-- The three response shapes of the /join-room handler: HTTP 404 with
error "Room not found", HTTP 400 with error "Room is full", and HTTP 200
echoing the creator's language and name. -/
inductive JoinResponse where
  | notFound
  | roomFull
  | success (creatorLanguage creatorName : String)
deriving Repr, DecidableEq

/-- The /join-room handler (server.js lines 60-88) over the
activeSessions map, modelled as an association list from room id to
session record: 404 when the id is unknown, 400 when the participant
slot is already (truthily) filled, otherwise record the participant's
language and name and echo the creator's. -/
def joinRoom (sessions : List (String × RoomSession))
    (roomId pLang pName : String) :
    List (String × RoomSession) × JoinResponse :=
  match sessions.lookup roomId with
  | none => (sessions, JoinResponse.notFound)
  | some session =>
    if optTruthy session.participantLanguage then (sessions, JoinResponse.roomFull)
    else
      let updated := { session with participantLanguage := some pLang,
                                    participantName := some pName }
      (sessions.map (fun p => if p.1 = roomId then (p.1, updated) else p),
       JoinResponse.success session.creatorLanguage session.creatorName)

/-- C6: joining fails with the not-found response exactly when the room
id is absent from the registry, fails with the room-full response when
the peer slot is already filled, and otherwise succeeds with a response
echoing the creator's language and name. -/
theorem joinRoom_spec (sessions : List (String × RoomSession))
    (roomId pLang pName : String) :
    (sessions.lookup roomId = none →
      (joinRoom sessions roomId pLang pName).2 = JoinResponse.notFound) ∧
    (∀ session, sessions.lookup roomId = some session →
      optTruthy session.participantLanguage = true →
      (joinRoom sessions roomId pLang pName).2 = JoinResponse.roomFull) ∧
    (∀ session, sessions.lookup roomId = some session →
      optTruthy session.participantLanguage = false →
      (joinRoom sessions roomId pLang pName).2 =
        JoinResponse.success session.creatorLanguage session.creatorName) := by
  refine ⟨?_, ?_, ?_⟩
  · intro h
    simp [joinRoom, h]
  · intro session h hfull
    simp [joinRoom, h, hfull]
  · intro session h hopen
    simp [joinRoom, h, hopen]

/-- A registry holding one waiting room "abc12345" created by Alice. -/
def waitingRegistry : List (String × RoomSession) :=
  [("abc12345", { creatorLanguage := "en", creatorName := "Alice",
                  participantLanguage := none, participantName := none })]

/-- The same registry after Bob joined: the peer slot is filled. -/
def fullRegistry : List (String × RoomSession) :=
  [("abc12345", { creatorLanguage := "en", creatorName := "Alice",
                  participantLanguage := some "es", participantName := some "Bob" })]

/-- C6 witness: an unknown id yields not-found, a filled room yields
room-full, and a waiting room yields success echoing Alice and "en". -/
theorem joinRoom_spec_witness :
    (joinRoom waitingRegistry "zzz" "es" "Bob").2 = JoinResponse.notFound ∧
    (joinRoom fullRegistry "abc12345" "fr" "Carol").2 = JoinResponse.roomFull ∧
    (joinRoom waitingRegistry "abc12345" "es" "Bob").2 = JoinResponse.success "en" "Alice" :=
  ⟨(joinRoom_spec waitingRegistry "zzz" "es" "Bob").1 (by decide),
   (joinRoom_spec fullRegistry "abc12345" "fr" "Carol").2.1
     { creatorLanguage := "en", creatorName := "Alice",
       participantLanguage := some "es", participantName := some "Bob" }
     (by decide) (by decide),
   (joinRoom_spec waitingRegistry "abc12345" "es" "Bob").2.2
     { creatorLanguage := "en", creatorName := "Alice",
       participantLanguage := none, participantName := none }
     (by decide) (by decide)⟩

/-- An event as received by the partner connection's socket while this
connection tears down. -/
inductive PartnerEvt where
  | userLeft
  | translationEvt (originalText translatedText : String)
  | audioPlayback
deriving Repr, DecidableEq

/-- Recognizer for translation deliveries in a partner trace. -/
def isTranslationEvt : PartnerEvt → Bool
  | PartnerEvt.translationEvt _ _ => true
  | _ => false

/-- Recognizer for the user_left notification in a partner trace. -/
def isUserLeftEvt : PartnerEvt → Bool
  | PartnerEvt.userLeft => true
  | _ => false

/-- Whether some event satisfying p occurs strictly before some event
satisfying q in a trace. -/
def occursBefore (p q : PartnerEvt → Bool) : List PartnerEvt → Bool
  | [] => false
  | e :: rest => (p e && rest.any q) || occursBefore p q rest

/-- The ordered trace of events delivered to the partner during one
cleanup call (voice-processor.js lines 424-445), under the JS event-loop
semantics of the source:

cleanup runs synchronously through the timer cancellation and, when a
pending sentence differs from the last dispatched one, _finalizeSentence
(modelled by cleanupSync).  _finalizeSentence invokes the async
_translateAndSpeak WITHOUT awaiting it (line 238), so only the prefix of
_translateAndSpeak up to its first await runs now: the lock/empty-text
guard (line 242), the session lookup (line 248), the partner lookup and
language guard (lines 251-258), and the call into _translate (line 261).

.  When source and partner base language tags are equal, _translate
  returns synchronously (line 297) with an already-resolved promise, so
  the continuation of _translateAndSpeak (which sends the translation
  payload to both sockets, lines 264-274) is queued on the microtask
  queue FIRST; cleanup then suspends at `await this._stopStream()`
  (line 435), queueing its own continuation (slot detach + user_left
  notification, lines 437-443) SECOND.  The partner therefore receives
  the translation event, then user_left, and the synthesized audio only
  later, after the external synthesis call resolves.

.  When the base tags differ, _translate suspends on the external
  translation engine, which resolves only after the current microtask
  queue (holding cleanup's continuation) has drained.  The partner
  therefore receives user_left first and the translation event (then any
  audio) afterwards.

A partner whose socket is closed at delivery time receives no
translation event (the readyState guard inside partner._sendToUI); the
audio event is delivered when synthesis produced audio, the partner
socket is open and the raw partner.ws.send does not throw (line 278). -/
def cleanupPartnerTrace (s : VPState) (myLang : String) (env : RelayEnv) :
    List PartnerEvt :=
  match (cleanupSync s).2 with
  | none => [PartnerEvt.userLeft]
  | some text =>
    if s.isProcessing ∨ text = "" then [PartnerEvt.userLeft]
    else if ¬ env.sessionExists then [PartnerEvt.userLeft]
    else
      match env.partnerLanguage with
      | none => [PartnerEvt.userLeft]
      | some partnerLang =>
        if partnerLang = "" then [PartnerEvt.userLeft]
        else
          let translated := (translateText text myLang partnerLang env.translateOutcome).1
          let translationEvts :=
            if env.partnerSocketOpen = true
            then [PartnerEvt.translationEvt text translated] else []
          let audioEvts :=
            if env.ttsOutcome.isSome = true ∧ env.partnerSocketOpen = true ∧
               env.partnerSendThrows = false
            then [PartnerEvt.audioPlayback] else []
          if baseLang myLang = baseLang partnerLang then
            translationEvts ++ PartnerEvt.userLeft :: audioEvts
          else
            PartnerEvt.userLeft :: (translationEvts ++ audioEvts)

/-- The environment of a teardown with an English speaker, a Spanish
partner with an open socket, and external calls that all succeed. -/
def spanishPartnerEnv : RelayEnv :=
  { sessionExists := true, partnerLanguage := some "es", selfSocketOpen := true,
    partnerSocketOpen := true, translateOutcome := Except.ok "Estoy",
    ttsOutcome := some [0, 1], partnerSendThrows := false }

/-- C5 counterexample: tearing down with the pending sentence "I am",
an English speaker and a Spanish partner, the partner's trace is
user_left first, then the translation delivery, then the audio — the
trace contains both events but no translation delivery precedes
user_left, contradicting the claimed ordering. -/
theorem cleanup_user_left_precedes_translation :
    cleanupPartnerTrace pendingState "en" spanishPartnerEnv =
      [PartnerEvt.userLeft, PartnerEvt.translationEvt "I am" "Estoy",
       PartnerEvt.audioPlayback] ∧
    (cleanupPartnerTrace pendingState "en" spanishPartnerEnv).any isTranslationEvt = true ∧
    (cleanupPartnerTrace pendingState "en" spanishPartnerEnv).any isUserLeftEvt = true ∧
    occursBefore isTranslationEvt isUserLeftEvt
      (cleanupPartnerTrace pendingState "en" spanishPartnerEnv) = false := by
  decide

/-- C5 (amended): teardown with a pending dispatchable sentence still
flushes it synchronously into the finalize-then-relay path, but the
partner receives the resulting translation delivery before user_left
only when the source and partner base language tags are equal, so that
the translate step short-circuits without suspending on the external
engine; the flushed text is handed to the relay in both cases. -/
theorem cleanup_same_base_translation_first (s : VPState) (myLang pl : String)
    (env : RelayEnv)
    (h1 : s.sentence ≠ "") (h2 : s.sentence ≠ s.lastSentence)
    (h3 : s.isProcessing = false) (h4 : jsTrim s.sentence ≠ "")
    (h5 : env.sessionExists = true) (h6 : env.partnerLanguage = some pl)
    (h7 : pl ≠ "") (h8 : env.partnerSocketOpen = true)
    (h9 : baseLang myLang = baseLang pl) :
    (cleanupSync s).2 = some (jsTrim s.sentence) ∧
    occursBefore isTranslationEvt isUserLeftEvt
      (cleanupPartnerTrace s myLang env) = true := by
  have hd : (cleanupSync s).2 = some (jsTrim s.sentence) := by
    simp [cleanupSync, finalizeSentence, h1, h2]
  refine ⟨hd, ?_⟩
  simp [cleanupPartnerTrace, hd, h3, h4, h5, h6, h7, h8, h9, occursBefore,
        isTranslationEvt, isUserLeftEvt]

/-- The same teardown environment with an English partner ("en-GB"), so
the base tags match and translation short-circuits. -/
def englishPartnerEnv : RelayEnv :=
  { sessionExists := true, partnerLanguage := some "en-GB", selfSocketOpen := true,
    partnerSocketOpen := true, translateOutcome := Except.ok "UNUSED",
    ttsOutcome := some [0, 1], partnerSendThrows := false }

/-- C5 amended witness: with matching base tags "en" / "en-GB" the
flush dispatches "I am" and the partner sees the translation delivery
before user_left. -/
theorem cleanup_same_base_translation_first_witness :
    pendingState.sentence ≠ "" ∧
    pendingState.sentence ≠ pendingState.lastSentence ∧
    pendingState.isProcessing = false ∧
    jsTrim pendingState.sentence ≠ "" ∧
    englishPartnerEnv.sessionExists = true ∧
    englishPartnerEnv.partnerLanguage = some "en-GB" ∧
    ("en-GB" : String) ≠ "" ∧
    englishPartnerEnv.partnerSocketOpen = true ∧
    baseLang "en" = baseLang "en-GB" ∧
    ((cleanupSync pendingState).2 = some (jsTrim pendingState.sentence) ∧
     occursBefore isTranslationEvt isUserLeftEvt
       (cleanupPartnerTrace pendingState "en" englishPartnerEnv) = true) :=
  ⟨by decide, by decide, rfl, by decide, rfl, rfl, by decide, rfl, by decide,
   cleanup_same_base_translation_first pendingState "en" "en-GB" englishPartnerEnv
     (by decide) (by decide) rfl (by decide) rfl rfl (by decide) rfl (by decide)⟩
